import Mathlib

/-!
Shallow embedding of src/lib/passport-slack/strategy.js.

The source is a passport OAuth2 strategy for Slack.  It consists of:
  - a constructor that fills default endpoint URLs, records team and
    user_scope options, delegates to the generic OAuth2Strategy, and then
    replaces the getOAuthAccessToken method of the underlying oauth2 client
    with a wrapper that stores the raw exchange response on the strategy
    instance and rewrites the delivered access token;
  - userProfile, which builds a users.info request URL from the stored
    exchange response, issues it, and normalizes or rejects the reply;
  - get, a request helper that puts the token only in the query string;
  - authorizationParams, which computes extra authorization query
    parameters (team, user_scope).

JavaScript objects are modelled as Lean structures with Option fields for
properties that may be absent; a missing property reads as none, and a
property access on an absent object value is modelled as a thrown
exception (JsException).  Truthiness of a string value is being non-empty;
an absent value is falsy; an array value is always truthy.
-/

namespace PassportSlack

/-- Opaque transport-level error value handed to a node-style callback as
the err argument. -/
structure JsError where
  msg : String
deriving DecidableEq, Repr

/-- Opaque JavaScript exception value, as caught by the try block in
userProfile (a JSON.parse failure or a TypeError from reading a property
of undefined). -/
structure JsException where
  msg : String
deriving DecidableEq, Repr

/-- Truthiness of an optional string value: absent and empty are falsy. -/
def truthyS : Option String → Bool
  | none => false
  | some s => s ≠ ""

/-- JavaScript a || b for an optional string a and a string default b,
as used for options.tokenURL, options.authorizationURL and options.name
in the constructor. -/
def jsOrStr (a : Option String) (b : String) : String :=
  match a with
  | some s => if s ≠ "" then s else b
  | none => b

/-- Nested authed_user object of the oauth.v2.access response. -/
structure AuthedUser where
  id : String
  access_token : String
deriving DecidableEq, Repr

/-- Raw token-exchange response payload (the params argument of the inner
callback, stored as this.params on the strategy instance): top-level
access_token, nested authed_user, plus the remaining fields, kept opaque. -/
structure ExchangeParams where
  access_token : String
  authed_user : AuthedUser
  extra : List (String × String) := []
deriving DecidableEq, Repr

/-- Arguments passed to a getOAuthAccessToken continuation:
either an error, or (accessToken, refreshToken, params). -/
inductive ExchangeCallbackArgs where
  | err (e : JsError)
  | ok (accessToken refreshToken : String) (params : ExchangeParams)
deriving DecidableEq, Repr

/-- Embedding of the getOAuthAccessToken override installed by the
constructor (strategy.js lines 60 to 68).  Input: the current value of
this.params on the strategy instance and the arguments the underlying
exchange call delivers to the inner callback.  Output: the value of
this.params at the moment the outer callback is invoked, paired with the
arguments passed to the outer callback.  On error the state is untouched
and the error is propagated; on success this.params is assigned the raw
response first, then the access token is replaced by
params.authed_user.access_token, and the refresh token and raw response
are passed through. -/
def getOAuthAccessTokenHook (storedParams : Option ExchangeParams)
    (underlying : ExchangeCallbackArgs) :
    Option ExchangeParams × ExchangeCallbackArgs :=
  match underlying with
  | .err e => (storedParams, .err e)
  | .ok _accessToken refreshToken params =>
      (some params, .ok params.authed_user.access_token refreshToken params)

/-- Nested profile object of a users.info user (carries the email). -/
structure UserInnerProfile where
  email : Option String
deriving DecidableEq, Repr

/-- The user object of a users.info response; each property may be
absent. -/
structure SlackUser where
  id : Option String
  real_name : Option String
  profile : Option UserInnerProfile
deriving DecidableEq, Repr

/-- Parsed users.info response payload: the ok flag (its truthiness), an
optional error string, an optional user object, and the remaining raw
fields, kept opaque. -/
structure ProfilePayload where
  ok : Bool
  error : Option String
  user : Option SlackUser
  extra : List (String × String) := []
deriving DecidableEq, Repr

/-- The profile object after the normalization assignments in userProfile:
provider, id, displayName and email are set on the parsed payload object,
whose remaining fields stay in place (field payload). -/
structure NormalizedProfile where
  provider : String
  id : Option String
  displayName : Option String
  email : Option String
  payload : ProfilePayload
deriving DecidableEq, Repr

/-- The invocation of done that terminates userProfile. -/
inductive ProfileOutcome where
  | transportError (e : JsError)
  | exceptionError (e : JsException)
  | providerError (e : String)
  | rawSuccess (p : ProfilePayload)
  | normalizedSuccess (np : NormalizedProfile)
deriving DecidableEq, Repr

/-- Embedding of the normalization assignments (strategy.js lines 105 to
108).  Reading profile.user.id throws when user is absent; reading
profile.user.profile.email throws when user.profile is absent; otherwise
the payload object is extended with provider, id, displayName and email. -/
def normalizeProfile (p : ProfilePayload) : Except JsException NormalizedProfile :=
  match p.user with
  | none => .error (JsException.mk "TypeError: cannot read id of undefined")
  | some u =>
      match u.profile with
      | none => .error (JsException.mk "TypeError: cannot read email of undefined")
      | some inner =>
          .ok { provider := "Slack", id := u.id, displayName := u.real_name,
                email := inner.email, payload := p }

/-- Embedding of the branch on the parsed payload (strategy.js lines 98 to
111): if ok is falsy and error is truthy, done(profile.error); if ok is
falsy and error is falsy, done(null, profile) with the payload unmodified;
if ok is truthy, normalize and done(null, profile), where a thrown
TypeError is caught and passed as done(e). -/
def handleParsedBody (p : ProfilePayload) : ProfileOutcome :=
  if !p.ok then
    match p.error with
    | some e => if e ≠ "" then .providerError e else .rawSuccess p
    | none => .rawSuccess p
  else
    match normalizeProfile p with
    | .error e => .exceptionError e
    | .ok np => .normalizedSuccess np

/-- Result of JSON.parse on the response body: either it throws, or it
yields a payload. -/
inductive Body where
  | malformed (e : JsException)
  | parsed (p : ProfilePayload)
deriving DecidableEq, Repr

/-- Response delivered by this.get to its callback: an error or a body. -/
inductive TransportResponse where
  | failure (e : JsError)
  | success (body : Body)
deriving DecidableEq, Repr

/-- The users.info request URL built at strategy.js line 90 from the
stored exchange response: query parameter user is this.params.authed_user.id
and query parameter token is this.params.access_token (the top-level one). -/
def profileRequestUrl (params : ExchangeParams) : String :=
  "https://slack.com/api/users.info?user=" ++ params.authed_user.id ++
    "&token=" ++ params.access_token

/-- Embedding of userProfile (strategy.js lines 89 to 117).  Input: the
stored exchange response (this.params), the accessToken argument, and the
transport response the get call delivers.  Output: the request URL that
was issued, paired with the done invocation. -/
def userProfile (storedParams : ExchangeParams) (accessToken : String)
    (response : TransportResponse) : String × ProfileOutcome :=
  (profileRequestUrl storedParams,
    match response with
    | .failure e => .transportError e
    | .success body =>
        match body with
        | .malformed e => .exceptionError e
        | .parsed p => handleParsedBody p)

/-- Value of the user_scope option: a plain string or an array of
strings. -/
inductive UserScopeValue where
  | str (s : String)
  | arr (l : List String)
deriving DecidableEq, Repr

/-- Truthiness of a user_scope value: an array is always truthy, a string
is truthy when non-empty. -/
def UserScopeValue.truthy : UserScopeValue → Bool
  | .arr _ => true
  | .str s => s ≠ ""

/-- The string stored under the user_scope key: an array is joined with
single spaces, a string passes through unchanged. -/
def UserScopeValue.render : UserScopeValue → String
  | .arr l => String.intercalate " " l
  | .str s => s

/-- The object returned by authorizationParams: it can carry at most a
team key and a user_scope key; no other key is ever added. -/
structure AuthorizationParams where
  team : Option String
  user_scope : Option String
deriving DecidableEq, Repr

/-- Embedding of authorizationParams (strategy.js lines 133 to 144).
Input: the stored this._team and this._user_scope and the team property
of the per-request options object.  The local team is options.team ||
this._team; it is added when truthy.  The user_scope key is added when
this._user_scope is truthy, joined when it is an array. -/
def authorizationParams (selfTeam : Option String)
    (selfUserScope : Option UserScopeValue)
    (optionsTeam : Option String) : AuthorizationParams :=
  let team := if truthyS optionsTeam then optionsTeam else selfTeam
  { team := if truthyS team then team else none
    user_scope :=
      match selfUserScope with
      | some us => if us.truthy then some us.render else none
      | none => none }

/-- Options object accepted by the Strategy constructor; every recognized
property may be absent. -/
structure StrategyOptions where
  tokenURL : Option String := none
  authorizationURL : Option String := none
  team : Option String := none
  user_scope : Option UserScopeValue := none
  scope : Option (List String) := none
  name : Option String := none
deriving DecidableEq, Repr

/-- Configuration state of a constructed strategy instance: the endpoint
URLs after defaulting, this._team, this._user_scope, the scope as handed
to the underlying OAuth2Strategy, and this.name. -/
structure StrategyState where
  tokenURL : String
  authorizationURL : String
  team : Option String
  user_scope : Option UserScopeValue
  scope : Option (List String)
  name : String
deriving DecidableEq, Repr

/-- Embedding of the Strategy constructor (strategy.js lines 47 to 56):
tokenURL and authorizationURL get fixed defaults when falsy, team and
user_scope are copied to instance fields, the options (including scope,
which the constructor never touches) are handed to OAuth2Strategy, which
stores the scope as given, and name defaults to slack. -/
def Strategy.init (options : StrategyOptions) : StrategyState :=
  { tokenURL := jsOrStr options.tokenURL "https://slack.com/api/oauth.v2.access"
    authorizationURL := jsOrStr options.authorizationURL "https://slack.com/oauth/v2/authorize"
    team := options.team
    user_scope := options.user_scope
    scope := options.scope
    name := jsOrStr options.name "slack" }

/-- The default scope documented in the constructor doc comment of
strategy.js (lines 24 to 25). -/
def documentedDefaultScope : List String :=
  ["identity.basic", "identity.email", "identity.avatar", "identity.team"]

/-- C1: for every successful token exchange, the access token delivered to
the continuation equals the authed_user.access_token of the raw exchange
response (never the top-level access_token), the refresh token is passed
through unmodified, and the full raw response is the value stored on the
strategy instance when the continuation is invoked. -/
theorem exchange_stores_params_and_rewrites_token
    (st : Option ExchangeParams) (atk rtk : String) (p : ExchangeParams) :
    getOAuthAccessTokenHook st (.ok atk rtk p) =
      (some p, .ok p.authed_user.access_token rtk p) := rfl

/-- C2: for every invocation of userProfile with a stored raw exchange
response, the issued request URL is the users.info endpoint with query
parameter user set to the stored authed_user.id and query parameter token
set to the stored top-level access_token, whatever the accessToken
argument and the transport response are. -/
theorem userProfile_url_uses_stored_id_and_top_level_token
    (params : ExchangeParams) (tok : String) (resp : TransportResponse) :
    (userProfile params tok resp).1 =
      "https://slack.com/api/users.info?user=" ++ params.authed_user.id ++
        "&token=" ++ params.access_token := rfl

/-- C3: for every profile-fetch response that parses successfully but
whose payload has a falsy ok flag and no error field present, userProfile
invokes the continuation as a success, passing the parsed payload through
unmodified. -/
theorem userProfile_not_ok_no_error_passes_through
    (params : ExchangeParams) (tok : String) (p : ProfilePayload)
    (hok : p.ok = false) (herr : p.error = none) :
    userProfile params tok (.success (.parsed p)) =
      (profileRequestUrl params, .rawSuccess p) := by
  simp [userProfile, handleParsedBody, hok, herr]

/-- Witness for C3: the hypotheses hold and the conclusion evaluates on a
concrete not-ok payload with no error field. -/
theorem userProfile_not_ok_no_error_witness :
    (ProfilePayload.mk false none none [("warning", "w")]).ok = false ∧
    (ProfilePayload.mk false none none [("warning", "w")]).error = none ∧
    userProfile (ExchangeParams.mk "bot-1" (AuthedUser.mk "U1" "user-1") []) "tok"
        (.success (.parsed (ProfilePayload.mk false none none [("warning", "w")]))) =
      (profileRequestUrl (ExchangeParams.mk "bot-1" (AuthedUser.mk "U1" "user-1") []),
        .rawSuccess (ProfilePayload.mk false none none [("warning", "w")])) :=
  ⟨rfl, rfl,
    userProfile_not_ok_no_error_passes_through
      (ExchangeParams.mk "bot-1" (AuthedUser.mk "U1" "user-1") []) "tok"
      (ProfilePayload.mk false none none [("warning", "w")]) rfl rfl⟩

/-- C4: for every profile-fetch response that parses successfully with a
truthy ok flag and whose payload carries a user object with a nested
profile object, the continuation receives a profile whose provider field
is the constant Slack, whose id is the payload user id, whose displayName
is the payload user real_name, whose email is the payload user profile
email, with the raw payload fields retained on the profile object. -/
theorem userProfile_ok_normalizes
    (params : ExchangeParams) (tok : String) (p : ProfilePayload)
    (u : SlackUser) (inner : UserInnerProfile)
    (hok : p.ok = true) (hu : p.user = some u) (hp : u.profile = some inner) :
    userProfile params tok (.success (.parsed p)) =
      (profileRequestUrl params,
        .normalizedSuccess
          (NormalizedProfile.mk "Slack" u.id u.real_name inner.email p)) := by
  simp [userProfile, handleParsedBody, normalizeProfile, hok, hu, hp]

/-- Witness for C4: the hypotheses hold and the conclusion evaluates on
the end-to-end scenario payload of the spec. -/
theorem userProfile_ok_normalizes_witness :
    (ProfilePayload.mk true none
        (some (SlackUser.mk (some "U1") (some "Ada")
          (some (UserInnerProfile.mk (some "a@x.com"))))) []).ok = true ∧
    userProfile (ExchangeParams.mk "bot-1" (AuthedUser.mk "U1" "user-1") []) "user-1"
        (.success (.parsed (ProfilePayload.mk true none
          (some (SlackUser.mk (some "U1") (some "Ada")
            (some (UserInnerProfile.mk (some "a@x.com"))))) []))) =
      (profileRequestUrl (ExchangeParams.mk "bot-1" (AuthedUser.mk "U1" "user-1") []),
        .normalizedSuccess
          (NormalizedProfile.mk "Slack" (some "U1") (some "Ada") (some "a@x.com")
            (ProfilePayload.mk true none
              (some (SlackUser.mk (some "U1") (some "Ada")
                (some (UserInnerProfile.mk (some "a@x.com"))))) []))) :=
  ⟨rfl,
    userProfile_ok_normalizes
      (ExchangeParams.mk "bot-1" (AuthedUser.mk "U1" "user-1") []) "user-1"
      (ProfilePayload.mk true none
        (some (SlackUser.mk (some "U1") (some "Ada")
          (some (UserInnerProfile.mk (some "a@x.com"))))) [])
      (SlackUser.mk (some "U1") (some "Ada")
        (some (UserInnerProfile.mk (some "a@x.com"))))
      (UserInnerProfile.mk (some "a@x.com")) rfl rfl rfl⟩

/-- C5 counterexample: a payload with a falsy ok flag and an error field
present but empty is not delivered as a failure carrying that error value;
the code passes the payload through as a success, because the source tests
the truthiness of profile.error, not its presence. -/
theorem userProfile_empty_error_counterexample :
    (userProfile (ExchangeParams.mk "bot-1" (AuthedUser.mk "U1" "user-1") []) "tok"
        (.success (.parsed (ProfilePayload.mk false (some "") none [])))).2 =
      ProfileOutcome.rawSuccess (ProfilePayload.mk false (some "") none []) ∧
    (userProfile (ExchangeParams.mk "bot-1" (AuthedUser.mk "U1" "user-1") []) "tok"
        (.success (.parsed (ProfilePayload.mk false (some "") none [])))).2 ≠
      ProfileOutcome.providerError "" := by
  refine ⟨rfl, ?_⟩
  decide

/-- C5 as amended: for every profile-fetch response that parses
successfully with a falsy ok flag and a non-empty error field present,
userProfile invokes the continuation with a failure carrying exactly that
error value, and no profile is delivered. -/
theorem userProfile_nonempty_error_fails
    (params : ExchangeParams) (tok : String) (p : ProfilePayload) (e : String)
    (hok : p.ok = false) (herr : p.error = some e) (hne : e ≠ "") :
    userProfile params tok (.success (.parsed p)) =
      (profileRequestUrl params, .providerError e) := by
  simp [userProfile, handleParsedBody, hok, herr, hne]

/-- Witness for the amended C5: the hypotheses hold and the conclusion
evaluates on the user_not_found error scenario of the spec. -/
theorem userProfile_nonempty_error_fails_witness :
    (ProfilePayload.mk false (some "user_not_found") none []).ok = false ∧
    (ProfilePayload.mk false (some "user_not_found") none []).error =
      some "user_not_found" ∧
    "user_not_found" ≠ "" ∧
    userProfile (ExchangeParams.mk "bot-1" (AuthedUser.mk "U1" "user-1") []) "tok"
        (.success (.parsed (ProfilePayload.mk false (some "user_not_found") none []))) =
      (profileRequestUrl (ExchangeParams.mk "bot-1" (AuthedUser.mk "U1" "user-1") []),
        .providerError "user_not_found") :=
  ⟨rfl, rfl, by decide,
    userProfile_nonempty_error_fails
      (ExchangeParams.mk "bot-1" (AuthedUser.mk "U1" "user-1") []) "tok"
      (ProfilePayload.mk false (some "user_not_found") none [])
      "user_not_found" rfl rfl (by decide)⟩

/-- C6: for every transport response whose body fails to parse, userProfile
invokes the continuation with a failure carrying the parse exception
itself, and no profile is delivered. -/
theorem userProfile_parse_failure_propagates_exception
    (params : ExchangeParams) (tok : String) (e : JsException) :
    userProfile params tok (.success (.malformed e)) =
      (profileRequestUrl params, .exceptionError e) := rfl

/-- C7: authorizationParams returns a team key exactly when a truthy team
value is set on the request options or on the stored configuration, the
request-level value winning when both are set, and a user_scope key
exactly when the stored user_scope is set (truthy), an array joined with
single spaces and a plain non-empty string passed through unchanged; the
result type has no other keys and the function is pure. -/
theorem authorizationParams_characterization
    (selfTeam : Option String) (selfUserScope : Option UserScopeValue)
    (optionsTeam : Option String) :
    (authorizationParams selfTeam selfUserScope optionsTeam).team =
      (if truthyS optionsTeam then optionsTeam
       else if truthyS selfTeam then selfTeam else none) ∧
    (authorizationParams selfTeam selfUserScope optionsTeam).user_scope =
      (match selfUserScope with
       | some (UserScopeValue.arr l) => some (String.intercalate " " l)
       | some (UserScopeValue.str s) => if s = "" then none else some s
       | none => none) := by
  constructor
  · by_cases h : truthyS optionsTeam <;> simp [authorizationParams, h]
  · cases selfUserScope with
    | none => rfl
    | some us =>
        cases us with
        | str s =>
            by_cases h : s = "" <;>
              simp [authorizationParams, UserScopeValue.truthy,
                UserScopeValue.render, h]
        | arr l =>
            simp [authorizationParams, UserScopeValue.truthy,
              UserScopeValue.render]

/-- C8: the constructor doc comment of strategy.js and the spec state that
scope defaults to the fixed 4-element identity scope list, but the
constructor never touches options.scope, so a construction with no scope
supplied leaves the scope unset rather than equal to that default. -/
theorem constructor_leaves_scope_unset :
    (Strategy.init {}).scope = none ∧
    (Strategy.init {}).scope ≠ some documentedDefaultScope := by
  refine ⟨rfl, ?_⟩
  simp [Strategy.init]

/-- C9: with attempts A and B interleaved so that the token exchange of B
completes between the exchange of A and the profile fetch of A, the stored
raw exchange response read by the fetch of A is the response of B, so the
users.info URL of the fetch of A carries the user id and token of B, not
those of A: the claimed isolation property fails on the code. -/
theorem race_profile_fetch_reads_second_attempt :
    (let pA := ExchangeParams.mk "bot-A" (AuthedUser.mk "UA" "user-A") []
     let pB := ExchangeParams.mk "bot-B" (AuthedUser.mk "UB" "user-B") []
     let afterA := (getOAuthAccessTokenHook none (.ok "xA" "rA" pA)).1
     let afterB := (getOAuthAccessTokenHook afterA (.ok "xB" "rB" pB)).1
     afterB = some pB ∧
     Option.map
         (fun ps => (userProfile ps "user-A" (.failure (JsError.mk "pending"))).1)
         afterB = some (profileRequestUrl pB) ∧
     Option.map
         (fun ps => (userProfile ps "user-A" (.failure (JsError.mk "pending"))).1)
         afterB ≠ some (profileRequestUrl pA)) := by
  refine ⟨rfl, rfl, ?_⟩
  decide

/-- C10: userProfile never reads its accessToken argument: for any two
token values, the same stored raw exchange response and the same transport
response, the issued URL and the delivered outcome are identical. -/
theorem userProfile_ignores_accessToken_argument
    (params : ExchangeParams) (t1 t2 : String) (resp : TransportResponse) :
    userProfile params t1 resp = userProfile params t2 resp := rfl

end PassportSlack
